import Mathlib

/-!
# Verification of the Google Drive AI summarizer pipeline

A shallow embedding of the repository's pipeline code:

* `ai_service/drive_client.py` — folder listing with the Drive API collaborator,
* `ai_service/parsers.py`      — extension dispatch and TXT decoding,
* `ai_service/summarizer.py`   — input truncation and error-as-string summarization,
* `ai_service/main.py`         — the per-file batch orchestrator,
* `dashboard/views.py`         — URL derivation and CSV export.

External collaborators (the Drive HTTP API, the OpenAI model call, the PDF/DOCX
parsing libraries) are modelled as explicit parameters; everything the repository
itself computes is translated directly from the Python source.
-/

deriving instance DecidableEq for Except

namespace GDriveAI

/-! ## Drive client (`ai_service/drive_client.py`)

A remote file entry as returned by the Drive API `files().list` call with
`fields="files(id, name, mimeType, size, createdTime, modifiedTime)"`.
`mimeType` and `size` are optional because `main.py` reads them with
`.get('mimeType', '')` / `.get('size', 'N/A')`.  `parent` and `trashed` model
the query predicate `'{folder_id}' in parents and trashed=false`. -/
structure RemoteFile where
  id : String
  name : String
  mimeType : Option String
  size : Option String
  parent : String
  trashed : Bool
deriving DecidableEq, Repr

/-- The query predicate built by `list_files_in_folder` (drive_client.py:159-173):
`'{folder_id}' in parents and trashed=false`, conjoined with a disjunction of
`mimeType='m'` clauses when `mimeFilter` is non-empty.  When `mimeFilter` is
empty no mime clause is added to the query at all (drive_client.py:172). -/
def matchesQuery (folderId : String) (mimeFilter : List String) (f : RemoteFile) : Bool :=
  f.parent == folderId && !f.trashed &&
    (mimeFilter.isEmpty || mimeFilter.any (fun m => f.mimeType == some m))

/-- Collaborator model: the Drive API `files().list(q=..., pageSize=n)` call
returns at most `n` matching entries (one page) together with a
`nextPageToken` for the rest; the repository's client reads only the `files`
field of the first page (drive_client.py:176-183) and never requests a
subsequent page, so the collaborator is modelled as handing back the first
`pageSize` matching entries of the drive. -/
def apiListPage (drive : List RemoteFile) (folderId : String) (mimeFilter : List String)
    (pageSize : Nat) : List RemoteFile :=
  (drive.filter (matchesQuery folderId mimeFilter)).take pageSize

/-- Python `str.lower()` on a string, character by character. -/
def pyLower (s : String) : String :=
  String.mk (s.toList.map Char.toLower)

/-- The extension-to-mime translation of drive_client.py:164-170: each entry of
`file_types` is lowered and mapped to its mime type; unrecognized entries
contribute nothing. -/
def extToMime (ext : String) : Option String :=
  if pyLower ext = "pdf" then some "application/pdf"
  else if pyLower ext = "docx" then
    some "application/vnd.openxmlformats-officedocument.wordprocessingml.document"
  else if pyLower ext = "txt" then some "text/plain"
  else none

/-- The `mime_types` list accumulated by the loop at drive_client.py:163-170. -/
def mimeTypesFor (file_types : List String) : List String :=
  file_types.filterMap extToMime

/-- `GoogleDriveClient.list_files_in_folder` (drive_client.py:146-183): builds
the folder/trashed query, adds the mime disjunction only when `mime_types` is
non-empty, and executes a single `files().list` call with `pageSize=100`,
returning that page's `files` field. -/
def list_files_in_folder (drive : List RemoteFile) (folder_id : String)
    (file_types : List String) : List RemoteFile :=
  apiListPage drive folder_id (mimeTypesFor file_types) 100

/-! ## Parsers (`ai_service/parsers.py`)

Bytes are `List Nat` (each `< 256`), text is `List Char`. -/

/-- Is `b` a UTF-8 continuation byte (`0x80..0xBF`)? -/
def isCont (b : Nat) : Bool := 0x80 ≤ b && b ≤ 0xBF

/-- Valid second byte of a three-byte UTF-8 sequence with lead byte `b`
(the E0/ED special ranges exclude overlong encodings and surrogates). -/
def utf8Valid3 (b b2 : Nat) : Bool :=
  if b = 0xE0 then 0xA0 ≤ b2 && b2 ≤ 0xBF
  else if b = 0xED then 0x80 ≤ b2 && b2 ≤ 0x9F
  else isCont b2

/-- Valid second byte of a four-byte UTF-8 sequence with lead byte `b`. -/
def utf8Valid4 (b b2 : Nat) : Bool :=
  if b = 0xF0 then 0x90 ≤ b2 && b2 ≤ 0xBF
  else if b = 0xF4 then 0x80 ≤ b2 && b2 ≤ 0x8F
  else isCont b2

/-- Strict UTF-8 decoding, the semantics of Python's
`open(file_path, 'r', encoding='utf-8')` codec (parsers.py:61): `none` models a
`UnicodeDecodeError`. -/
def utf8Decode : List Nat → Option (List Char)
  | [] => some []
  | b :: rest =>
    if b < 0x80 then
      (utf8Decode rest).map (fun cs => Char.ofNat b :: cs)
    else if 0xC2 ≤ b && b ≤ 0xDF then
      match rest with
      | b2 :: rest2 =>
        if isCont b2 then
          (utf8Decode rest2).map (fun cs => Char.ofNat ((b - 0xC0) * 64 + (b2 - 0x80)) :: cs)
        else none
      | [] => none
    else if 0xE0 ≤ b && b ≤ 0xEF then
      match rest with
      | b2 :: b3 :: rest3 =>
        if utf8Valid3 b b2 && isCont b3 then
          (utf8Decode rest3).map
            (fun cs => Char.ofNat (((b - 0xE0) * 64 + (b2 - 0x80)) * 64 + (b3 - 0x80)) :: cs)
        else none
      | _ => none
    else if 0xF0 ≤ b && b ≤ 0xF4 then
      match rest with
      | b2 :: b3 :: b4 :: rest4 =>
        if utf8Valid4 b b2 && isCont b3 && isCont b4 then
          (utf8Decode rest4).map
            (fun cs =>
              Char.ofNat ((((b - 0xF0) * 64 + (b2 - 0x80)) * 64 + (b3 - 0x80)) * 64 + (b4 - 0x80))
                :: cs)
        else none
      | _ => none
    else none

/-- Latin-1 decoding, the semantics of `open(file_path, 'r', encoding='latin-1')`
(parsers.py:67): every byte maps to the code point of the same value, so this
decoding is total. -/
def latin1Decode (bytes : List Nat) : List Char :=
  bytes.map Char.ofNat

/-- Universal-newline translation performed by Python's text-mode `open` with
the default `newline=None` (used at parsers.py:61 and parsers.py:67): on
reading, `\r\n` and lone `\r` are translated to `\n`. -/
def universalNewlines : List Char → List Char
  | [] => []
  | [c] => if c = '\r' then ['\n'] else [c]
  | c :: c2 :: rest =>
    if c = '\r' then
      if c2 = '\n' then '\n' :: universalNewlines rest
      else '\n' :: universalNewlines (c2 :: rest)
    else c :: universalNewlines (c2 :: rest)

/-- The whitespace predicate of Python's `str.strip()` (ASCII part). -/
def isSpaceChar (c : Char) : Bool :=
  c = ' ' || c = '\t' || c = '\n' || c = '\r' || c = '\x0b' || c = '\x0c'

/-- Python `str.strip()`: drop leading and trailing whitespace. -/
def pyStrip (l : List Char) : List Char :=
  ((l.dropWhile isSpaceChar).reverse.dropWhile isSpaceChar).reverse

/-- The repository's extraction error taxonomy: `FileNotFoundError`
(parsers.py:90), `ValueError("Unsupported file type: ...")` (parsers.py:104),
and the wrapped parser failures `Exception("Error extracting text from ...")`. -/
inductive ExtErr where
  | fileNotFound (path : String)
  | unsupportedFormat (ext : String)
  | extraction (msg : String)
deriving DecidableEq, Repr

/-- `extract_text_from_txt` (parsers.py:50-73): read the file in text mode as
UTF-8 and strip; on `UnicodeDecodeError` retry in Latin-1 (which cannot fail)
and strip.  Both reads go through text mode, hence through universal-newline
translation. -/
def extract_text_from_txt (bytes : List Nat) : Except ExtErr (List Char) :=
  match utf8Decode bytes with
  | some s => Except.ok (pyStrip (universalNewlines s))
  | none => Except.ok (pyStrip (universalNewlines (latin1Decode bytes)))

/-- `extract_text_from_pdf` (parsers.py:11-29) with the PyPDF2 page extraction
as collaborator `pdfPages` (the pages' texts, or a library failure): the loop
appends each page's text plus `"\n"`, then strips; failures are wrapped. -/
def extract_text_from_pdf (pdfPages : Except String (List (List Char))) :
    Except ExtErr (List Char) :=
  match pdfPages with
  | Except.error e => Except.error (ExtErr.extraction ("Error extracting text from PDF: " ++ e))
  | Except.ok pages => Except.ok (pyStrip ((pages.map (fun p => p ++ ['\n'])).flatten))

/-- `extract_text_from_docx` (parsers.py:32-47) with the python-docx paragraph
extraction as collaborator: paragraph texts joined with `"\n"`, stripped;
failures wrapped. -/
def extract_text_from_docx (docxParas : Except String (List (List Char))) :
    Except ExtErr (List Char) :=
  match docxParas with
  | Except.error e => Except.error (ExtErr.extraction ("Error extracting text from DOCX: " ++ e))
  | Except.ok paras => Except.ok (pyStrip (List.intercalate ['\n'] paras))

/-- Index of the last occurrence of `c` in `l`, if any. -/
def lastIdx (c : Char) (l : List Char) : Option Nat :=
  (List.range l.length).filter (fun i => l.getD i c == c && decide (i < l.length)) |>.getLast?

/-- `os.path.splitext(p)[1]` (parsers.py:93): the extension starts at the last
dot of `p`, provided that dot lies in the basename (after the last `/`) and at
least one non-dot character of the basename precedes it (leading dots of the
basename never begin an extension). -/
def splitextExt (p : List Char) : List Char :=
  match lastIdx '.' p with
  | none => []
  | some d =>
    let start := match lastIdx '/' p with
      | none => 0
      | some s => s + 1
    if start ≤ d ∧ (List.range d).any (fun j => start ≤ j && (p.getD j '.' != '.')) then
      p.drop d
    else []

/-- Lower-case a character list (`ext.lower()`, parsers.py:94). -/
def toLowerL (l : List Char) : List Char :=
  l.map Char.toLower

/-- The lowered extension of a path, as computed at parsers.py:93-94. -/
def extLower (path : String) : List Char :=
  toLowerL (splitextExt path.toList)

/-- `extract_text_from_file` (parsers.py:76-104): existence check, extension
dispatch on the lowered `os.path.splitext` extension, `ValueError` with the
offending extension otherwise.  The filesystem is an association list from
paths to byte contents; the PDF/DOCX library calls are collaborators keyed by
the file's bytes. -/
def extract_text_from_file (fs : List (String × List Nat))
    (pdfLib : List Nat → Except String (List (List Char)))
    (docxLib : List Nat → Except String (List (List Char)))
    (path : String) : Except ExtErr (List Char) :=
  match fs.lookup path with
  | none => Except.error (ExtErr.fileNotFound path)
  | some bytes =>
    let ext := extLower path
    if ext = ".pdf".toList then extract_text_from_pdf (pdfLib bytes)
    else if ext = ".docx".toList then extract_text_from_docx (docxLib bytes)
    else if ext = ".txt".toList then extract_text_from_txt bytes
    else Except.error (ExtErr.unsupportedFormat (String.mk ext))

/-- `validate_text_content` (parsers.py:107-120). -/
def validate_text_content (text : List Char) (min_length : Nat := 10) : Bool :=
  !(text.isEmpty) && decide (min_length ≤ (pyStrip text).length)

/-! ## Summarizer (`ai_service/summarizer.py`) -/

/-- The truncation marker appended at summarizer.py:36. -/
def truncationMarker : List Char :=
  "...\n[Content truncated]".toList

/-- The truncation step of summarizer.py:33-36: if the text exceeds
`max_input_length = 12000` characters, keep the first 12000 and append the
marker; otherwise pass the text through unchanged. -/
def truncatedInput (text : List Char) : List Char :=
  if 12000 < text.length then text.take 12000 ++ truncationMarker else text

/-- The prompt built at summarizer.py:39-47: fixed instruction text, the
filename (or `Untitled` when the filename is empty, matching the falsy test
`filename if filename else 'Untitled'`), and the truncated content. -/
def promptFor (text filename : List Char) : List Char :=
  ("Please provide a concise summary of the following document.\n" ++
   "Focus on the main points, key findings, and important information.\n\n" ++
   "Document: ").toList
  ++ (if filename = [] then "Untitled".toList else filename)
  ++ "\n\nContent:\n".toList
  ++ truncatedInput text
  ++ "\n\nSummary:".toList

/-- `summarize_text` (summarizer.py:18-70).  `apiKey` models the
`OPENAI_API_KEY` environment variable read by `get_openai_client`
(summarizer.py:10-15); `modelCall` is the OpenAI chat-completion collaborator,
mapping the prompt to the response content or a failure description.  The
whole body runs inside `try`, and the `except` clause returns
`f"Error generating summary: {str(e)}"` instead of raising, so the function is
total. -/
def summarize_text (apiKey : Option (List Char))
    (modelCall : List Char → Except (List Char) (List Char))
    (text filename : List Char) : List Char :=
  match apiKey with
  | none =>
    "Error generating summary: OPENAI_API_KEY environment variable is not set".toList
  | some _ =>
    match modelCall (promptFor text filename) with
    | Except.error e => "Error generating summary: ".toList ++ e
    | Except.ok content => pyStrip content

/-- `get_token_estimate` (summarizer.py:95-106). -/
def get_token_estimate (text : List Char) : Nat :=
  text.length / 4

/-! ## Batch orchestrator (`ai_service/main.py`)

One result row is the dictionary built at main.py:76-82 / main.py:89-95,
modelled as an association list so that key-presence questions (the dashboard
checks `'id' in file_data` and `file_data.get('url', '')`) are expressible. -/

/-- One `files` entry of the `/summarize` response. -/
abbrev Row := List (String × String)

/-- The per-file stage collaborators seen by `summarize_files`:
`download` is `drive_client.download_file` (returning the local path it wrote,
or raising), `extractText` is `extract_text_from_file` on that path, and
`summarize` is `summarize_text` (total in the real code, but the orchestrator's
`try` would also catch a failure from it, so it is given the general fallible
type). Errors carry `str(e)`. -/
structure PipelineEnv where
  download : RemoteFile → Except String String
  extractText : String → Except String String
  summarize : String → String → Except String String

/-- The result dictionary shape shared by main.py:76-82 and main.py:89-95:
keys `name`, `type`, `size`, `summary`, `status` in that order, with
`type = file_info.get('mimeType', '')` and `size = file_info.get('size', 'N/A')`. -/
def mkRow (f : RemoteFile) (summary status : String) : Row :=
  [("name", f.name), ("type", f.mimeType.getD ""), ("size", f.size.getD "N/A"),
   ("summary", summary), ("status", status)]

/-- The row recorded for one file: the `try` body runs download, extract,
summarize and appends a success row; any failure drops to the `except` clause
at main.py:88-95, which appends an error row with
`summary = f'Error processing file: {str(e)}'`. -/
def rowFor (env : PipelineEnv) (f : RemoteFile) : Row :=
  match env.download f with
  | Except.error e => mkRow f ("Error processing file: " ++ e) "error"
  | Except.ok path =>
    match env.extractText path with
    | Except.error e => mkRow f ("Error processing file: " ++ e) "error"
    | Except.ok text =>
      match env.summarize text f.name with
      | Except.error e => mkRow f ("Error processing file: " ++ e) "error"
      | Except.ok s => mkRow f s "success"

/-- Record that `download_file` wrote `p` into the download directory: the
path is present afterwards whether or not it already existed. -/
def insertPath (disk : List String) (p : String) : List String :=
  if p ∈ disk then disk else p :: disk

/-- One iteration of the `for file_info in files` loop (main.py:62-95),
threading the set of local files in `temp_downloads` as `disk`.  Cleanup
(`if os.path.exists(file_path): os.remove(file_path)`, main.py:85-86) is the
last statement of the `try` body, so it runs only when download, extract and
summarize all succeeded; the `except` clause appends the error row and removes
nothing. -/
def processFile (env : PipelineEnv) (disk : List String) (f : RemoteFile) :
    List String × Row :=
  match env.download f with
  | Except.error e => (disk, mkRow f ("Error processing file: " ++ e) "error")
  | Except.ok path =>
    let disk1 := insertPath disk path
    match env.extractText path with
    | Except.error e => (disk1, mkRow f ("Error processing file: " ++ e) "error")
    | Except.ok text =>
      match env.summarize text f.name with
      | Except.error e => (disk1, mkRow f ("Error processing file: " ++ e) "error")
      | Except.ok s => (disk1.erase path, mkRow f s "success")

/-- Loop step: append the file's row to `results` and carry the disk state. -/
def processStep (env : PipelineEnv) (st : List String × List Row) (f : RemoteFile) :
    List String × List Row :=
  ((processFile env st.1 f).1, st.2 ++ [(processFile env st.1 f).2])

/-- The `/summarize` response model (main.py:23-26). -/
structure SummarizeResponse where
  files : List Row
  total_files : Nat
deriving DecidableEq, Repr

/-- `summarize_files` (main.py:35-103): the listing result (an `Except`
because `list_files_in_folder` wraps transport failures in an exception that
escapes to the outer handler and becomes an HTTP 500); on an empty listing the
empty response is returned immediately (main.py:56-57); otherwise each file is
processed in listing order and the response carries the rows with
`total_files = len(results)`.  The second component of the result is the final
contents of the download directory. -/
def summarize_files (env : PipelineEnv) (listing : Except String (List RemoteFile))
    (disk0 : List String) : Except String (SummarizeResponse × List String) :=
  match listing with
  | Except.error e => Except.error e
  | Except.ok files =>
    if files.isEmpty then Except.ok (⟨[], 0⟩, disk0)
    else
      let st := files.foldl (processStep env) (disk0, [])
      Except.ok (⟨st.2, st.2.length⟩, st.1)

/-! ## Dashboard (`dashboard/views.py`) -/

/-- The URL-derivation loop of `summarize` (views.py:116-118): each response
row gains `url = https://drive.google.com/file/d/{id}/view` when the key `id`
is present in the row. -/
def addDriveUrls (files : List Row) : List Row :=
  files.map (fun r =>
    match r.lookup "id" with
    | some i => r ++ [("url", "https://drive.google.com/file/d/" ++ i ++ "/view")]
    | none => r)

/-- `file_data.get(k, '')` (views.py:169-174). -/
def getS (r : Row) (k : String) : String :=
  (r.lookup k).getD ""

/-- One CSV data row (views.py:167-175): fixed field order
`[name, type, size, summary, url, status]`, absent keys rendered as `''`. -/
def csvRow (r : Row) : List String :=
  [getS r "name", getS r "type", getS r "size", getS r "summary", getS r "url",
   getS r "status"]

/-- The header row written at views.py:164. -/
def csvHeaderRow : List String :=
  ["File Name", "Type", "Size", "Summary", "File URL", "Status"]

/-- `download_csv` (views.py:144-181), at the level of rows handed to
`csv.writer`: the fixed header followed by one data row per response row, in
order. -/
def download_csv (results : SummarizeResponse) : List (List String) :=
  csvHeaderRow :: results.files.map csvRow

/-! ## Concrete fixtures used by witnesses and counterexamples -/

/-- A plain-text drive entry in folder `fold`. -/
def fA : RemoteFile :=
  ⟨"id1", "a.txt", some "text/plain", some "5", "fold", false⟩

/-- A PDF drive entry in folder `fold`. -/
def fPdf : RemoteFile :=
  ⟨"id2", "b.pdf", some "application/pdf", none, "fold", false⟩

/-- Stage collaborators where every per-file stage succeeds. -/
def envAllOk : PipelineEnv :=
  ⟨fun _ => Except.ok "temp_downloads/a.txt",
   fun _ => Except.ok "text",
   fun _ _ => Except.ok "sum"⟩

/-- Stage collaborators where extraction raises after a successful download. -/
def envExtractFails : PipelineEnv :=
  ⟨fun _ => Except.ok "temp_downloads/a.txt",
   fun _ => Except.error "Error extracting text from TXT: boom",
   fun _ _ => Except.ok "sum"⟩

/-- Stage collaborators where summarization raises after a successful
extraction. -/
def envSummarizeFails : PipelineEnv :=
  ⟨fun _ => Except.ok "temp_downloads/a.txt",
   fun _ => Except.ok "text",
   fun _ _ => Except.error "LLM down"⟩

/-! ## Helper lemmas -/

theorem universalNewlines_cons_ne (c : Char) (rest : List Char) (hc : c ≠ '\r') :
    universalNewlines (c :: rest) = c :: universalNewlines rest := by
  cases rest with
  | nil => simp [universalNewlines, hc]
  | cons c2 rest2 => simp [universalNewlines, hc]

theorem universalNewlines_of_no_cr (l : List Char) (h : '\r' ∉ l) :
    universalNewlines l = l := by
  induction l with
  | nil => rfl
  | cons c rest ih =>
    have hc : c ≠ '\r' := fun hcc => h (hcc ▸ List.mem_cons_self c rest)
    have hr : '\r' ∉ rest := fun hm => h (List.mem_cons_of_mem c hm)
    rw [universalNewlines_cons_ne c rest hc]
    exact congrArg (c :: ·) (ih hr)

theorem processFile_snd (env : PipelineEnv) (f : RemoteFile) (d : List String) :
    (processFile env d f).2 = rowFor env f := by
  rcases hd : env.download f with e | p
  · simp [processFile, rowFor, hd]
  · rcases he : env.extractText p with e | t
    · simp [processFile, rowFor, hd, he]
    · rcases hs : env.summarize t f.name with e | s <;>
        simp [processFile, rowFor, hd, he, hs]

theorem processStep_foldl (env : PipelineEnv) (files : List RemoteFile) :
    ∀ (d : List String) (acc : List Row),
      (files.foldl (processStep env) (d, acc)).2 = acc ++ files.map (rowFor env) := by
  induction files with
  | nil => intro d acc; simp
  | cons f rest ih =>
    intro d acc
    simp only [List.foldl_cons, List.map_cons]
    rw [show processStep env (d, acc) f =
          ((processFile env d f).1, acc ++ [rowFor env f]) by
        simp [processStep, processFile_snd]]
    rw [ih]
    simp

theorem summarize_files_ok (env : PipelineEnv) (files : List RemoteFile)
    (disk0 : List String) :
    ∃ disk, summarize_files env (Except.ok files) disk0 =
      Except.ok (⟨files.map (rowFor env), (files.map (rowFor env)).length⟩, disk) := by
  cases files with
  | nil => exact ⟨disk0, rfl⟩
  | cons f rest =>
    refine ⟨((f :: rest).foldl (processStep env) (disk0, [])).1, ?_⟩
    have h2 := processStep_foldl env (f :: rest) disk0 []
    simp only [summarize_files, List.isEmpty_cons, Bool.false_eq_true, if_false]
    rw [h2]
    simp

theorem rowFor_is_mkRow (env : PipelineEnv) (f : RemoteFile) :
    ∃ summary status, rowFor env f = mkRow f summary status := by
  rcases hd : env.download f with e | p
  · exact ⟨"Error processing file: " ++ e, "error", by simp [rowFor, hd]⟩
  · rcases he : env.extractText p with e | t
    · exact ⟨"Error processing file: " ++ e, "error", by simp [rowFor, hd, he]⟩
    · rcases hs : env.summarize t f.name with e | s
      · exact ⟨"Error processing file: " ++ e, "error", by simp [rowFor, hd, he, hs]⟩
      · exact ⟨s, "success", by simp [rowFor, hd, he, hs]⟩

theorem rowFor_fixed_keys (env : PipelineEnv) (f : RemoteFile) :
    (rowFor env f).map Prod.fst = ["name", "type", "size", "summary", "status"]
    ∧ (rowFor env f).lookup "id" = none
    ∧ (rowFor env f).lookup "url" = none
    ∧ (rowFor env f).lookup "name" = some f.name := by
  obtain ⟨summary, status, h⟩ := rowFor_is_mkRow env f
  rw [h]
  exact ⟨rfl, rfl, rfl, rfl⟩

/-! ## Claim theorems -/

/-- C6: `summarize_text` never raises: with no API key it returns the string
describing the missing key, when the model call fails it returns
`"Error generating summary: "` followed by the failure's description, and when
the model call succeeds it returns the stripped response content — in every
case the caller receives a summary string. -/
theorem summarize_text_error_as_string (apiKey : Option (List Char))
    (modelCall : List Char → Except (List Char) (List Char)) (text filename : List Char) :
    (apiKey = none →
      summarize_text apiKey modelCall text filename =
        "Error generating summary: OPENAI_API_KEY environment variable is not set".toList)
    ∧ (∀ k e, apiKey = some k → modelCall (promptFor text filename) = Except.error e →
        summarize_text apiKey modelCall text filename =
          "Error generating summary: ".toList ++ e)
    ∧ (∀ k c, apiKey = some k → modelCall (promptFor text filename) = Except.ok c →
        summarize_text apiKey modelCall text filename = pyStrip c) := by
  refine ⟨?_, ?_, ?_⟩
  · intro h
    simp [summarize_text, h]
  · intro k e hk he
    simp [summarize_text, hk, he]
  · intro k c hk hc
    simp [summarize_text, hk, hc]

theorem summarize_text_error_as_string_witness :
    summarize_text none (fun _ => Except.ok "fine".toList) "doc".toList "a.txt".toList =
      "Error generating summary: OPENAI_API_KEY environment variable is not set".toList
    ∧ summarize_text (some "key".toList) (fun _ => Except.error "quota exceeded".toList)
        "doc".toList "a.txt".toList =
      "Error generating summary: ".toList ++ "quota exceeded".toList
    ∧ summarize_text (some "key".toList) (fun _ => Except.ok "  a summary  ".toList)
        "doc".toList "a.txt".toList = pyStrip "  a summary  ".toList :=
  ⟨(summarize_text_error_as_string none (fun _ => Except.ok "fine".toList)
      "doc".toList "a.txt".toList).1 rfl,
   (summarize_text_error_as_string (some "key".toList)
      (fun _ => Except.error "quota exceeded".toList) "doc".toList "a.txt".toList).2.1
      "key".toList "quota exceeded".toList rfl rfl,
   (summarize_text_error_as_string (some "key".toList)
      (fun _ => Except.ok "  a summary  ".toList) "doc".toList "a.txt".toList).2.2
      "key".toList "  a summary  ".toList rfl rfl⟩

/-- C7: the summarizer's pre-processing is a pure function of the text: text
longer than the 12000-character budget is cut to exactly its first 12000
characters followed by the truncation marker, text at or under the budget
passes through unchanged, and the prompt handed to the model embeds exactly
this pre-processed text. -/
theorem summarizer_truncation (text filename : List Char) :
    (12000 < text.length →
      truncatedInput text = text.take 12000 ++ truncationMarker)
    ∧ (text.length ≤ 12000 → truncatedInput text = text)
    ∧ promptFor text filename =
        (("Please provide a concise summary of the following document.\n" ++
          "Focus on the main points, key findings, and important information.\n\n" ++
          "Document: ").toList
         ++ (if filename = [] then "Untitled".toList else filename)
         ++ "\n\nContent:\n".toList)
        ++ truncatedInput text ++ "\n\nSummary:".toList := by
  refine ⟨?_, ?_, ?_⟩
  · intro h
    simp [truncatedInput, h]
  · intro h
    simp [truncatedInput, Nat.not_lt.mpr h]
  · simp [promptFor]

theorem summarizer_truncation_witness :
    truncatedInput (List.replicate 12001 'a') =
      (List.replicate 12001 'a').take 12000 ++ truncationMarker
    ∧ truncatedInput ['h', 'i'] = ['h', 'i'] :=
  ⟨(summarizer_truncation (List.replicate 12001 'a') []).1
      (by rw [List.length_replicate]; omega),
   (summarizer_truncation ['h', 'i'] []).2.1 (by decide)⟩

/-- C8: `extract_text_from_file` dispatches strictly and case-insensitively on
the `os.path.splitext` extension: a lowered extension of `.pdf`, `.docx` or
`.txt` routes to the corresponding parser, and any other extension fails with
the unsupported-format error carrying that extension — no default parser is
ever tried. -/
theorem extract_extension_dispatch (fs : List (String × List Nat))
    (pdfLib docxLib : List Nat → Except String (List (List Char)))
    (path : String) (bytes : List Nat) (hfs : fs.lookup path = some bytes) :
    (extLower path = ".pdf".toList →
      extract_text_from_file fs pdfLib docxLib path = extract_text_from_pdf (pdfLib bytes))
    ∧ (extLower path = ".docx".toList →
      extract_text_from_file fs pdfLib docxLib path = extract_text_from_docx (docxLib bytes))
    ∧ (extLower path = ".txt".toList →
      extract_text_from_file fs pdfLib docxLib path = extract_text_from_txt bytes)
    ∧ (extLower path ∉ [".pdf".toList, ".docx".toList, ".txt".toList] →
      extract_text_from_file fs pdfLib docxLib path =
        Except.error (ExtErr.unsupportedFormat (String.mk (extLower path)))) := by
  refine ⟨?_, ?_, ?_, ?_⟩
  · intro h
    simp [extract_text_from_file, hfs, h]
  · intro h
    simp [extract_text_from_file, hfs, h]
  · intro h
    simp [extract_text_from_file, hfs, h]
  · intro h
    simp only [List.mem_cons, List.not_mem_nil, or_false, not_or] at h
    obtain ⟨h1, h2, h3⟩ := h
    simp only [extract_text_from_file, hfs]
    rw [if_neg h1, if_neg h2, if_neg h3]

theorem extract_extension_dispatch_witness :
    extract_text_from_file [("temp_downloads/a.XYZ", [1])]
        (fun _ => Except.ok [['x']]) (fun _ => Except.ok [['y']])
        "temp_downloads/a.XYZ" =
      Except.error (ExtErr.unsupportedFormat ".xyz")
    ∧ extract_text_from_file [("temp_downloads/b.PDF", [2])]
        (fun _ => Except.ok [['x']]) (fun _ => Except.ok [['y']])
        "temp_downloads/b.PDF" =
      extract_text_from_pdf (Except.ok [['x']]) := by
  constructor
  · have h := (extract_extension_dispatch [("temp_downloads/a.XYZ", [1])]
      (fun _ => Except.ok [['x']]) (fun _ => Except.ok [['y']])
      "temp_downloads/a.XYZ" [1] (by decide)).2.2.2 (by decide)
    rw [h]
    decide
  · exact (extract_extension_dispatch [("temp_downloads/b.PDF", [2])]
      (fun _ => Except.ok [['x']]) (fun _ => Except.ok [['y']])
      "temp_downloads/b.PDF" [2] (by decide)).1 (by decide)

/-- C9 counterexample: for the valid-UTF-8 bytes `b"a\r\nb"`, `extract` does
not return the trimmed UTF-8 decoding of the bytes: Python's text-mode read
also translates `\r\n` to `\n`, so the result is `"a\nb"` while the trimmed
decoding is `"a\r\nb"`. -/
theorem txt_exact_decode_cex :
    utf8Decode [97, 13, 10, 98] = some ['a', '\r', '\n', 'b']
    ∧ pyStrip ['a', '\r', '\n', 'b'] = ['a', '\r', '\n', 'b']
    ∧ extract_text_from_txt [97, 13, 10, 98] = Except.ok ['a', '\n', 'b']
    ∧ (['a', '\n', 'b'] : List Char) ≠ ['a', '\r', '\n', 'b'] := by
  refine ⟨by decide, by decide, by decide, by decide⟩

/-- C9 (amended): for bytes that decode as UTF-8, `extract` returns the
decoding after universal-newline translation, trimmed — which is exactly the
trimmed decoding whenever the text contains no carriage return; for bytes that
are invalid UTF-8, `extract` retries once as Latin-1 (which always succeeds)
and returns that decoding, newline-translated and trimmed. -/
theorem txt_utf8_latin1_fallback (bytes : List Nat) :
    (∀ s, utf8Decode bytes = some s →
      extract_text_from_txt bytes = Except.ok (pyStrip (universalNewlines s))
      ∧ ('\r' ∉ s → extract_text_from_txt bytes = Except.ok (pyStrip s)))
    ∧ (utf8Decode bytes = none →
      extract_text_from_txt bytes =
        Except.ok (pyStrip (universalNewlines (latin1Decode bytes)))) := by
  constructor
  · intro s hs
    constructor
    · simp [extract_text_from_txt, hs]
    · intro hcr
      rw [show extract_text_from_txt bytes = Except.ok (pyStrip (universalNewlines s)) by
        simp [extract_text_from_txt, hs]]
      rw [universalNewlines_of_no_cr s hcr]
  · intro hs
    simp [extract_text_from_txt, hs]

theorem txt_utf8_latin1_fallback_witness :
    extract_text_from_txt [32, 104, 105] = Except.ok ['h', 'i']
    ∧ extract_text_from_txt [255] =
        Except.ok (pyStrip (universalNewlines (latin1Decode [255]))) := by
  constructor
  · have h := ((txt_utf8_latin1_fallback [32, 104, 105]).1 [' ', 'h', 'i'] (by decide)).2
      (by decide)
    rw [h]
    decide
  · exact (txt_utf8_latin1_fallback [255]).2 (by decide)

/-- C3 counterexample: listing is bounded by the page size.  In a folder whose
drive holds 101 matching entries, `list_files_in_folder` returns only 100 of
them: the single `files().list` call uses `pageSize=100` and the
`nextPageToken` is never followed. -/
theorem list_pagination_cex :
    ((List.replicate 101 fA).filter (matchesQuery "fold" (mimeTypesFor []))).length = 101
    ∧ (list_files_in_folder (List.replicate 101 fA) "fold" []).length = 100
    ∧ (100 : Nat) ≠ 101 := by
  refine ⟨by decide, by decide, by decide⟩

/-- C3 (amended): `list` returns the first page only: the matching non-trashed
entries of the folder, in drive order, truncated to the `pageSize=100` of the
single collaborator call — so the number of files returned is bounded by 100
and pagination is not handled. -/
theorem list_single_page_only (drive : List RemoteFile) (folder_id : String)
    (file_types : List String) :
    list_files_in_folder drive folder_id file_types =
      (drive.filter (matchesQuery folder_id (mimeTypesFor file_types))).take 100
    ∧ (list_files_in_folder drive folder_id file_types).length =
      min 100 (drive.filter (matchesQuery folder_id (mimeTypesFor file_types))).length
    ∧ (list_files_in_folder drive folder_id file_types).length ≤ 100 := by
  refine ⟨rfl, ?_, ?_⟩
  · simp [list_files_in_folder, apiListPage]
  · simp only [list_files_in_folder, apiListPage, List.length_take]
    exact Nat.min_le_left _ _

/-- C4 counterexample: a filter consisting only of unrecognized values does
not exclude everything — `["xyz"]` contributes no mime clause, the query gets
no type restriction at all, and the plain-text entry is returned. -/
theorem filter_degrades_cex :
    list_files_in_folder [fA] "fold" ["xyz"] = [fA]
    ∧ ([fA] : List RemoteFile) ≠ [] := by
  refine ⟨by decide, by decide⟩

/-- C4 (amended): only the recognized values (`pdf`, `docx`, `txt`,
case-insensitive) of a type filter contribute mime restrictions.  When at
least one recognized value is present, every returned entry is a non-trashed
member of the folder whose mime type corresponds to a recognized filter value;
when the filter has no recognized values (in particular when it is empty or
absent) no type restriction is applied and the listing equals the unfiltered
one. -/
theorem list_filter_recognized_only (drive : List RemoteFile) (folder_id : String)
    (file_types : List String) :
    (mimeTypesFor file_types = [] →
      list_files_in_folder drive folder_id file_types =
        list_files_in_folder drive folder_id [])
    ∧ (∀ f ∈ list_files_in_folder drive folder_id file_types,
        f.parent = folder_id ∧ f.trashed = false
        ∧ (mimeTypesFor file_types ≠ [] →
            ∃ m ∈ mimeTypesFor file_types, f.mimeType = some m)) := by
  constructor
  · intro h
    have h0 : mimeTypesFor ([] : List String) = [] := rfl
    simp only [list_files_in_folder, apiListPage, h, h0]
  · intro f hf
    have hmem := List.mem_of_mem_take hf
    rw [List.mem_filter] at hmem
    obtain ⟨-, hq⟩ := hmem
    simp only [matchesQuery, Bool.and_eq_true, Bool.not_eq_true'] at hq
    obtain ⟨⟨hparent, htrash⟩, hmime⟩ := hq
    refine ⟨by simpa using hparent, htrash, ?_⟩
    intro hne
    rcases Bool.or_eq_true _ _ |>.mp hmime with hemp | hany
    · exact absurd (List.isEmpty_iff.mp hemp) hne
    · obtain ⟨m, hm, hbeq⟩ := List.any_eq_true.mp hany
      exact ⟨m, hm, by simpa using hbeq⟩

theorem list_filter_recognized_only_witness :
    list_files_in_folder [fA] "fold" ["xyz"] = list_files_in_folder [fA] "fold" []
    ∧ fPdf.parent = "fold" ∧ fPdf.trashed = false
    ∧ fPdf.mimeType = some "application/pdf"
    ∧ "application/pdf" ∈ mimeTypesFor ["pdf"] := by
  refine ⟨(list_filter_recognized_only [fA] "fold" ["xyz"]).1 (by decide), ?_⟩
  have h := (list_filter_recognized_only [fPdf] "fold" ["pdf"]).2 fPdf (by decide)
  obtain ⟨hp, ht, himp⟩ := h
  obtain ⟨m, hm, he⟩ := himp (by decide)
  have hlist : mimeTypesFor ["pdf"] = ["application/pdf"] := rfl
  have hm' : m = "application/pdf" := by
    rw [hlist] at hm
    simpa using hm
  exact ⟨hp, ht, hm' ▸ he, hm' ▸ hm⟩

/-- C5 counterexample: the CSV header is not the five-column row when no
result carries a url — the code writes the six-column header including
`"File URL"` unconditionally (views.py:164). -/
theorem csv_header_cex :
    (download_csv ⟨[mkRow fA "sum" "success"], 1⟩).head? =
      some ["File Name", "Type", "Size", "Summary", "File URL", "Status"]
    ∧ (mkRow fA "sum" "success").lookup "url" = none
    ∧ ["File Name", "Type", "Size", "Summary", "File URL", "Status"] ≠
      ["File Name", "Type", "Size", "Summary", "Status"] := by
  refine ⟨by decide, by decide, by decide⟩

/-- C5 (amended): the CSV export always writes the fixed six-column header
`["File Name","Type","Size","Summary","File URL","Status"]`, url or no url;
the output has exactly `len(files)+1` rows — the header plus one row per
result, in input order — and a field missing from a result (such as the url)
renders as an empty cell. -/
theorem download_csv_shape (results : SummarizeResponse) :
    (download_csv results).length = results.files.length + 1
    ∧ (download_csv results).head? =
        some ["File Name", "Type", "Size", "Summary", "File URL", "Status"]
    ∧ (∀ i, (download_csv results).get? (i + 1) = (results.files.get? i).map csvRow)
    ∧ (∀ r : Row, r.lookup "url" = none → (csvRow r).get? 4 = some "") := by
  refine ⟨by simp [download_csv], rfl, ?_, ?_⟩
  · intro i
    simp [download_csv]
  · intro r h
    simp [csvRow, getS, h]

theorem download_csv_shape_witness :
    (download_csv ⟨[mkRow fA "sum" "success"], 1⟩).length = 2
    ∧ (download_csv ⟨[mkRow fA "sum" "success"], 1⟩).get? 1 =
        some (csvRow (mkRow fA "sum" "success"))
    ∧ (csvRow (mkRow fA "sum" "success")).get? 4 = some "" := by
  have h := download_csv_shape ⟨[mkRow fA "sum" "success"], 1⟩
  refine ⟨by rw [h.1]; rfl, ?_, h.2.2.2 (mkRow fA "sum" "success") (by decide)⟩
  have h1 := h.2.2.1 0
  simpa using h1

theorem processing_error_summary_ne_empty (e : String) :
    "Error processing file: " ++ e ≠ "" := by
  intro hcontra
  have hlen := congrArg String.length hcontra
  rw [String.length_append] at hlen
  have h23 : ("Error processing file: " : String).length = 23 := rfl
  have h0 : ("" : String).length = 0 := rfl
  rw [h23, h0] at hlen
  omega

/-- C1: when listing succeeds the batch always succeeds, its result rows are
exactly one row per listed file, in listing order (the row names follow the
file names positionally), `total_files` equals the number of rows, every row
is either a success row or an error row with a non-empty summary, a failure in
download, extraction or summarization of a file yields that file's error row
without aborting the batch, and an empty listing yields the empty response
with `total_files = 0` and no error. -/
theorem summarize_files_one_row_per_file (env : PipelineEnv) (disk0 : List String)
    (listing : Except String (List RemoteFile)) (files : List RemoteFile)
    (h : listing = Except.ok files) :
    ∃ rs disk, summarize_files env listing disk0 = Except.ok (rs, disk)
      ∧ rs.files = files.map (rowFor env)
      ∧ rs.files.length = files.length
      ∧ rs.total_files = rs.files.length
      ∧ rs.files.map (fun r => r.lookup "name") = files.map (fun g => some g.name)
      ∧ (∀ r ∈ rs.files, r.lookup "status" = some "success"
          ∨ (r.lookup "status" = some "error" ∧ (r.lookup "summary").getD "" ≠ ""))
      ∧ (files = [] → summarize_files env listing disk0 = Except.ok (⟨[], 0⟩, disk0))
      ∧ (∀ g e, env.download g = Except.error e →
          rowFor env g = mkRow g ("Error processing file: " ++ e) "error")
      ∧ (∀ g p e, env.download g = Except.ok p → env.extractText p = Except.error e →
          rowFor env g = mkRow g ("Error processing file: " ++ e) "error")
      ∧ (∀ g p t e, env.download g = Except.ok p → env.extractText p = Except.ok t →
          env.summarize t g.name = Except.error e →
          rowFor env g = mkRow g ("Error processing file: " ++ e) "error")
      ∧ (∀ g p t s, env.download g = Except.ok p → env.extractText p = Except.ok t →
          env.summarize t g.name = Except.ok s →
          rowFor env g = mkRow g s "success") := by
  subst h
  obtain ⟨disk, hok⟩ := summarize_files_ok env files disk0
  refine ⟨_, disk, hok, rfl, by simp, rfl, ?_, ?_, ?_, ?_, ?_, ?_, ?_⟩
  · show (files.map (rowFor env)).map (fun r => r.lookup "name") = _
    rw [List.map_map]
    exact List.map_congr_left (fun g _ => (rowFor_fixed_keys env g).2.2.2)
  · intro r hr
    obtain ⟨g, hg, hgr⟩ := List.mem_map.mp hr
    subst hgr
    rcases hd : env.download g with e | p
    · have hrow : rowFor env g = mkRow g ("Error processing file: " ++ e) "error" := by
        simp [rowFor, hd]
      exact Or.inr ⟨by rw [hrow]; rfl,
        by rw [hrow]; exact processing_error_summary_ne_empty e⟩
    · rcases he : env.extractText p with e | t
      · have hrow : rowFor env g = mkRow g ("Error processing file: " ++ e) "error" := by
          simp [rowFor, hd, he]
        exact Or.inr ⟨by rw [hrow]; rfl,
          by rw [hrow]; exact processing_error_summary_ne_empty e⟩
      · rcases hs : env.summarize t g.name with e | s
        · have hrow : rowFor env g = mkRow g ("Error processing file: " ++ e) "error" := by
            simp [rowFor, hd, he, hs]
          exact Or.inr ⟨by rw [hrow]; rfl,
            by rw [hrow]; exact processing_error_summary_ne_empty e⟩
        · have hrow : rowFor env g = mkRow g s "success" := by simp [rowFor, hd, he, hs]
          exact Or.inl (by rw [hrow]; rfl)
  · intro hnil
    subst hnil
    rfl
  · intro g e hd
    simp [rowFor, hd]
  · intro g p e hd he
    simp [rowFor, hd, he]
  · intro g p t e hd he hs
    simp [rowFor, hd, he, hs]
  · intro g p t s hd he hs
    simp [rowFor, hd, he, hs]

theorem summarize_files_one_row_per_file_witness :
    ((rowFor envExtractFails fA).lookup "status" = some "success"
      ∨ ((rowFor envExtractFails fA).lookup "status" = some "error"
          ∧ ((rowFor envExtractFails fA).lookup "summary").getD "" ≠ ""))
    ∧ [rowFor envExtractFails fA].map (fun r => r.lookup "name") = [some "a.txt"] := by
  obtain ⟨rs, disk, hok, hfiles, hlen, htot, hnames, hstat, hempty, hD1, hD2, hD3, hD4⟩ :=
    summarize_files_one_row_per_file envExtractFails [] (Except.ok [fA]) [fA] rfl
  constructor
  · apply hstat
    rw [hfiles]
    simp
  · rw [hfiles] at hnames
    simpa using hnames

/-- C2 counterexample: the transient downloaded copy is not deleted in every
case.  With a collaborator whose extraction raises after a successful
download, the batch over one file ends with `temp_downloads/a.txt` still
present: the cleanup statement sits at the end of the `try` body and the
`except` path never removes the file. -/
theorem cleanup_claim_cex :
    summarize_files envExtractFails (Except.ok [fA]) [] =
      Except.ok
        (⟨[mkRow fA "Error processing file: Error extracting text from TXT: boom" "error"], 1⟩,
         ["temp_downloads/a.txt"])
    ∧ "temp_downloads/a.txt" ∈ ["temp_downloads/a.txt"] := by
  refine ⟨by decide, by decide⟩

/-- C2 (amended): the downloaded local copy is deleted before the next file
only when the file's extract and summarize stages both succeed; when a
per-file stage raises after the download, the copy stays in the download
directory. -/
theorem cleanup_only_on_success (env : PipelineEnv) (disk : List String) (f : RemoteFile)
    (p : String) (hd : env.download f = Except.ok p) (hp : p ∉ disk) :
    (∀ t s, env.extractText p = Except.ok t → env.summarize t f.name = Except.ok s →
      (processFile env disk f).1 = disk)
    ∧ (∀ e, env.extractText p = Except.error e →
      (processFile env disk f).1 = p :: disk)
    ∧ (∀ t e, env.extractText p = Except.ok t → env.summarize t f.name = Except.error e →
      (processFile env disk f).1 = p :: disk) := by
  have hins : insertPath disk p = p :: disk := by simp [insertPath, hp]
  refine ⟨?_, ?_, ?_⟩
  · intro t s ht hs
    simp [processFile, hd, ht, hs, hins, List.erase_cons_head]
  · intro e he
    simp [processFile, hd, he, hins]
  · intro t e ht hs
    simp [processFile, hd, ht, hs, hins]

theorem cleanup_only_on_success_witness :
    (processFile envAllOk [] fA).1 = []
    ∧ (processFile envExtractFails [] fA).1 = ["temp_downloads/a.txt"]
    ∧ (processFile envSummarizeFails [] fA).1 = ["temp_downloads/a.txt"] :=
  ⟨(cleanup_only_on_success envAllOk [] fA "temp_downloads/a.txt" rfl (by simp)).1
      "text" "sum" rfl rfl,
   (cleanup_only_on_success envExtractFails [] fA "temp_downloads/a.txt" rfl (by simp)).2.1
      "Error extracting text from TXT: boom" rfl,
   (cleanup_only_on_success envSummarizeFails [] fA "temp_downloads/a.txt" rfl (by simp)).2.2
      "text" "LLM down" rfl rfl⟩

/-- C10: every result row of a successful batch has exactly the keys
`{name, type, size, summary, status}` and never an `id` key; hence the
dashboard's URL-derivation loop leaves the rows unchanged, no row ever gains a
`url`, and the CSV's `File URL` column is always empty. -/
theorem response_rows_never_have_id (env : PipelineEnv) (disk0 : List String)
    (listing : Except String (List RemoteFile)) (files : List RemoteFile)
    (rs : SummarizeResponse) (disk : List String)
    (h : listing = Except.ok files)
    (hrun : summarize_files env listing disk0 = Except.ok (rs, disk)) :
    (∀ r ∈ rs.files, r.map Prod.fst = ["name", "type", "size", "summary", "status"]
      ∧ r.lookup "id" = none)
    ∧ addDriveUrls rs.files = rs.files
    ∧ (∀ r ∈ rs.files, r.lookup "url" = none ∧ (csvRow r).get? 4 = some "") := by
  subst h
  obtain ⟨disk2, hok⟩ := summarize_files_ok env files disk0
  rw [hok] at hrun
  have hpair := Except.ok.inj hrun
  have hrs : rs.files = files.map (rowFor env) := by
    have h1 := congrArg Prod.fst hpair
    exact (congrArg SummarizeResponse.files h1).symm
  refine ⟨?_, ?_, ?_⟩
  · intro r hr
    rw [hrs] at hr
    obtain ⟨g, hg, hgr⟩ := List.mem_map.mp hr
    subst hgr
    exact ⟨(rowFor_fixed_keys env g).1, (rowFor_fixed_keys env g).2.1⟩
  · rw [hrs, addDriveUrls, List.map_map]
    refine List.map_congr_left (fun g _ => ?_)
    simp [(rowFor_fixed_keys env g).2.1]
  · intro r hr
    rw [hrs] at hr
    obtain ⟨g, hg, hgr⟩ := List.mem_map.mp hr
    subst hgr
    refine ⟨(rowFor_fixed_keys env g).2.2.1, ?_⟩
    simp [csvRow, getS, (rowFor_fixed_keys env g).2.2.1]

theorem response_rows_never_have_id_witness :
    addDriveUrls [mkRow fA "sum" "success"] = [mkRow fA "sum" "success"]
    ∧ (mkRow fA "sum" "success").lookup "id" = none := by
  have h := response_rows_never_have_id envAllOk [] (Except.ok [fA]) [fA]
      ⟨[mkRow fA "sum" "success"], 1⟩ [] rfl (by decide)
  exact ⟨h.2.1, (h.1 (mkRow fA "sum" "success") (by simp)).2⟩

end GDriveAI
